import Mathlib

/-!
Verification development for the Mebior-messenger repository.

The repository contains several near-duplicate React clients over a Firestore
document store.  We shallowly embed the store-facing handlers of the variants
cited by the specification claims:

* `P4` — `src/unnamed/part_004` (flat `messages` collection, chat metadata
  updated by a separate read-then-write round trip after each append);
* `P5` — `src/unnamed/part_005` (same family; chat deletion removes only the
  chat document, message deletion is an unconditional hard delete);
* `P3` — `src/unnamed/part_003` (same family; client-side chat sorting,
  message deletion with counter decrement, chat creation with
  `lastMessageAt: null`, mention insertion with a containment check);
* `P1` — `src/unnamed/part_001` (messages nested under each chat document;
  append never touches `messageCount`);
* `App` — `src/src/App.tsx` (global notification listener with a
  last-notified-id ref, mention insertion without a containment check).

The document store is modelled as explicit state: lists of `(id, document)`
pairs, a fresh-id counter, and a logical server clock that advances on every
write that uses `serverTimestamp()` (all `serverTimestamp()` fields of one
write resolve to the same value, as in Firestore).
-/

/-- Message document of the flat `messages` collection
(`src/unnamed/part_004` `handleSendMessage`, fields `chatId`, `text`,
`createdAt`, `userId`, `userName`, `fileName`, `fileUrl`). -/
structure MsgDoc where
  chatId : Nat
  text : Option String
  createdAt : Nat
  userId : String
  userName : String
  fileName : Option String := none
  fileUrl : Option String := none
deriving DecidableEq

/-- Chat document of the `chats` collection
(`src/unnamed/part_004` `handleCreateChat`: `title`, `createdAt`,
`lastMessageAt`, `createdBy`, `messageCount`).  `messageCount` and
`lastMessageAt` are optional because some variants create documents without
them (`part_003` writes `lastMessageAt: null`). -/
structure ChatDoc where
  title : String
  createdAt : Nat
  lastMessageAt : Option Nat
  createdBy : String
  messageCount : Option Nat
deriving DecidableEq

/-- The document store state for the flat-collection family
(`part_003`/`part_004`/`part_005`): the `chats` and `messages` collections,
the next fresh document id, and the server clock. -/
structure Store where
  chats : List (Nat × ChatDoc)
  msgs : List (Nat × MsgDoc)
  nextId : Nat
  clock : Nat
deriving DecidableEq

/-- Empty store. -/
def Store.init : Store := { chats := [], msgs := [], nextId := 0, clock := 0 }

/-- JS `String.prototype.trim()` (used as `newMessage.trim()` /
`title?.trim()` throughout the variants), modelled structurally: drop
whitespace from both ends.  (`String.trim` of the core library is
extensionally the same but is defined by well-founded recursion, which the
kernel cannot evaluate.) -/
def jsTrim (s : String) : String :=
  String.mk
    (((s.data.dropWhile Char.isWhitespace).reverse.dropWhile
        Char.isWhitespace).reverse)

/-- Firestore `getDoc(doc(db, "chats", cid))` — look the chat document up by id. -/
def findChat (s : Store) (cid : Nat) : Option ChatDoc :=
  (s.chats.find? (fun p => p.1 == cid)).map (·.2)

/-- Firestore `addDoc(collection(db, "messages"), ...)` as performed by
`handleSendMessage` in `part_004` (lines 252–262) and `part_005`
(lines 346–354): a new document with a fresh id and a server-assigned
`createdAt`. -/
def addMessage (cid : Nat) (uid uname text : String) (s : Store) : Store :=
  { s with
    msgs := s.msgs ++
      [(s.nextId,
        { chatId := cid, text := some text, createdAt := s.clock,
          userId := uid, userName := uname })]
    nextId := s.nextId + 1
    clock := s.clock + 1 }

/-- The `updateDoc(chatDocRef, { lastMessageAt: serverTimestamp(),
messageCount: count })` round trip of `handleSendMessage`
(`part_004` lines 273–277, `part_005` lines 361–365).  `updateDoc` on a
missing document rejects; the surrounding `catch` swallows the error, so the
state is left as it was. -/
def updateChatMeta (cid : Nat) (count : Nat) (s : Store) : Store :=
  match s.chats.find? (fun p => p.1 == cid) with
  | none => s
  | some _ =>
    { s with
      chats := s.chats.map (fun p =>
        if p.1 == cid then
          (p.1, { p.2 with lastMessageAt := some s.clock,
                           messageCount := some count })
        else p)
      clock := s.clock + 1 }

/-- The `currentCount` computation of `handleSendMessage`
(`part_004` lines 269–271: `(chatSnap.exists() &&
(chatSnap.data().messageCount as number)) || 0`; `part_005` lines 358–360
add one more `|| 0`): the stored count if the document exists and the field
is present, else `0`. -/
def readCurrentCount (cid : Nat) (s : Store) : Nat :=
  ((findChat s cid).bind (·.messageCount)).getD 0

namespace P4

/-- Full sequential `handleSendMessage` of `src/unnamed/part_004`
(lines 245–282): guard on the trimmed text, `addDoc` of the message, then the
separate `getDoc` / `updateDoc(count + 1)` round trips against the chat
document. -/
def handleSendMessage (activeChatId : Option Nat) (uid uname text : String)
    (s : Store) : Store :=
  match activeChatId with
  | none => s
  | some cid =>
    if jsTrim text = "" then s
    else
      let s1 := addMessage cid uid uname (jsTrim text) s
      updateChatMeta cid (readCurrentCount cid s1 + 1) s1

/-- Per-caller execution state for interleaved `handleSendMessage` calls:
the shared store plus each caller's local `currentCount` variable
(`part_004` line 269). -/
structure RunState where
  store : Store
  regs : List (Nat × Nat)
deriving DecidableEq

/-- The three store round trips of `handleSendMessage`, as separate atomic
steps of caller `k`: the message `addDoc`, the chat `getDoc` (saving
`currentCount` into the caller's local variable), and the chat `updateDoc`
writing `currentCount + 1`. -/
inductive SendStep where
  | add (k : Nat)
  | read (k : Nat)
  | write (k : Nat)
deriving DecidableEq

/-- Small-step semantics of one round trip of caller `k`'s
`handleSendMessage` against chat `cid`; `uid k` / `uname k` / `text k` are
caller `k`'s identity and (already trimmed, nonempty) message text. -/
def stepSend (cid : Nat) (uid uname text : Nat → String) :
    SendStep → RunState → RunState
  | .add k, r => { r with store := addMessage cid (uid k) (uname k) (text k) r.store }
  | .read k, r =>
    { r with regs := (k, readCurrentCount cid r.store) ::
                     r.regs.filter (fun p => p.1 ≠ k) }
  | .write k, r =>
    match r.regs.find? (fun p => p.1 == k) with
    | none => r
    | some kv => { r with store := updateChatMeta cid (kv.2 + 1) r.store }

/-- Run a schedule of round trips. -/
def exec (cid : Nat) (uid uname text : Nat → String)
    (steps : List SendStep) (r : RunState) : RunState :=
  steps.foldl (fun r st => stepSend cid uid uname text st r) r

end P4

/-- Initial store for the concurrency scenario: one chat (id `0`) with
`messageCount = 0`, no messages. -/
def oneChatStore : Store :=
  { chats := [(0, { title := "General", createdAt := 0,
                    lastMessageAt := some 0, createdBy := "u0",
                    messageCount := some 0 })]
    msgs := [], nextId := 1, clock := 1 }

/-- Identity of caller `k` in the concurrency scenario. -/
def callerUid (k : Nat) : String := if k = 1 then "u1" else "u2"

/-- Message text of caller `k` in the concurrency scenario. -/
def callerText (k : Nat) : String := if k = 1 then "a" else "b"

/-- The interleaving in which both callers perform their `getDoc` before
either performs its `updateDoc`: both observe the same stale count. -/
def lostUpdateSchedule : List P4.SendStep :=
  [.add 1, .add 2, .read 1, .read 2, .write 1, .write 2]

/-- The same two appends run back to back (no interleaving). -/
def sequentialSchedule : List P4.SendStep :=
  [.add 1, .read 1, .write 1, .add 2, .read 2, .write 2]

/-- Stable ascending insertion by `createdAt`: a new element is placed after
all elements whose `createdAt` is less than or equal to its own. -/
def insertMsgAsc (m : Nat × MsgDoc) : List (Nat × MsgDoc) → List (Nat × MsgDoc)
  | [] => [m]
  | b :: rest =>
    if m.2.createdAt < b.2.createdAt then m :: b :: rest
    else b :: insertMsgAsc m rest

/-- Stable sort of messages ascending by `createdAt` (the store's
`orderBy("createdAt", "asc")`). -/
def sortMsgsAsc (l : List (Nat × MsgDoc)) : List (Nat × MsgDoc) :=
  l.foldl (fun acc m => insertMsgAsc m acc) []

/-- The per-chat message read of `src/unnamed/part_004` (lines 182–217):
`query(messagesCol, where("chatId", "==", activeChatId),
orderBy("createdAt", "asc"))`.  A total function of the store — it filters
the flat collection by the `chatId` field and never fails. -/
def readMessagesFor (cid : Nat) (s : Store) : List (Nat × MsgDoc) :=
  sortMsgsAsc (s.msgs.filter (fun p => p.2.chatId == cid))

namespace P5

/-- Handler `handleDeleteMessage` of `src/unnamed/part_005` (lines 376–384): a bare
`deleteDoc(doc(db, "messages", messageId))`.  There is no author check (the
function does not even receive the caller), the message document is removed
outright (no tombstone), and the chat document — hence `messageCount` — is
untouched. -/
def handleDeleteMessage (mid : Nat) (s : Store) : Store :=
  { s with msgs := s.msgs.filter (fun p => p.1 != mid) }

/-- Handler `handleDeleteChat` of `src/unnamed/part_005` (lines 324–336): it deletes
only the chat document (`deleteDoc(doc(db, "chats", chatId))`); the chat's
messages are never removed from the `messages` collection. -/
def handleDeleteChat (cid : Nat) (s : Store) : Store :=
  { s with chats := s.chats.filter (fun p => p.1 != cid) }

end P5

namespace P3

/-- The counter-decrement step of `handleDeleteMessage` in
`src/unnamed/part_003` (lines 340–347): `getDoc` the chat; if it exists,
`updateDoc` with `messageCount: Math.max(0, ((messageCount ?? 1) - 1))`
(truncated subtraction on `Nat` is exactly `max 0 (c - 1)`). -/
def decrementCount (cid : Nat) (s : Store) : Store :=
  match findChat s cid with
  | none => s
  | some c =>
    { s with
      chats := s.chats.map (fun p =>
        if p.1 == cid then
          (p.1, { p.2 with messageCount := some (c.messageCount.getD 1 - 1) })
        else p) }

/-- Handler `handleDeleteMessage` of `src/unnamed/part_003` (lines 333–352):
`deleteDoc` of the message, then the counter decrement.  Again no author
check — only the render layer hides the delete button for other users'
messages (line 609, `isMine &&`). -/
def handleDeleteMessage (mid cid : Nat) (s : Store) : Store :=
  decrementCount cid { s with msgs := s.msgs.filter (fun p => p.1 != mid) }

/-- Handler `handleDeleteChat` of `src/unnamed/part_003` (lines 259–288): deletes
every message whose `chatId` equals the chat's id, then the chat document
itself. -/
def handleDeleteChat (cid : Nat) (s : Store) : Store :=
  { s with
    msgs := s.msgs.filter (fun p => p.2.chatId != cid)
    chats := s.chats.filter (fun p => p.1 != cid) }

end P3

/-- Concrete store for the deletion scenario of claim C3: one chat with
`messageCount = 1` and one message (id `5`) authored by `"u1"`. -/
def c3Store : Store :=
  { chats := [(0, { title := "General", createdAt := 0,
                    lastMessageAt := some 1, createdBy := "u0",
                    messageCount := some 1 })]
    msgs := [(5, { chatId := 0, text := some "hello", createdAt := 1,
                   userId := "u1", userName := "U1" })]
    nextId := 6, clock := 2 }

/-- Concrete store for the room-deletion scenario of claim C5: one chat and
one message (id `1`) belonging to it. -/
def c5Store : Store :=
  { chats := [(0, { title := "General", createdAt := 0,
                    lastMessageAt := some 1, createdBy := "u0",
                    messageCount := some 1 })]
    msgs := [(1, { chatId := 0, text := some "hi", createdAt := 1,
                   userId := "u1", userName := "U1" })]
    nextId := 2, clock := 2 }

namespace P4

/-- Handler `handleCreateChat` of `src/unnamed/part_004` (lines 221–244): the
`window.prompt` result may be `null`; `if (!title) return;` silently stops
on `null` or the empty string (no trimming, no error).  Otherwise `addDoc`
creates the chat with `createdAt: serverTimestamp()`,
`lastMessageAt: serverTimestamp()` (the same commit time), `createdBy`, and
`messageCount: 0`, and returns the fresh document id. -/
def handleCreateChat (title : Option String) (uid : String) (s : Store) :
    Store × Option Nat :=
  match title with
  | none => (s, none)
  | some t =>
    if t = "" then (s, none)
    else
      ({ s with
          chats := s.chats ++
            [(s.nextId,
              { title := t, createdAt := s.clock,
                lastMessageAt := some s.clock, createdBy := uid,
                messageCount := some 0 })]
          nextId := s.nextId + 1
          clock := s.clock + 1 }, some s.nextId)

end P4

namespace P3

/-- Handler `handleCreateChat` of `src/unnamed/part_003` (lines 1043–1066): same
guard as the `part_004` variant, but the new chat document is written with
`lastMessageAt: null` instead of the creation timestamp. -/
def handleCreateChat (title : Option String) (uid : String) (s : Store) :
    Store × Option Nat :=
  match title with
  | none => (s, none)
  | some t =>
    if t = "" then (s, none)
    else
      ({ s with
          chats := s.chats ++
            [(s.nextId,
              { title := t, createdAt := s.clock,
                lastMessageAt := none, createdBy := uid,
                messageCount := some 0 })]
          nextId := s.nextId + 1
          clock := s.clock + 1 }, some s.nextId)

end P3

/-- Chat document of the `part_001` variant (`src/unnamed/part_001`,
`handleCreateChat` lines 357–372 and the `handleSend` metadata update
lines 336–341): `title`, `createdAt`, `messageCount`, and the
last-message metadata written after each send. -/
structure ChatMeta where
  title : String
  createdAt : Nat
  messageCount : Nat
  lastMessageText : Option String := none
  lastMessageAt : Option Nat := none
deriving DecidableEq

/-- Message document of the `part_001` variant (nested collection
`chats/{chatId}/messages`, `handleSend` lines 318–330). -/
structure MsgDoc1 where
  text : String
  createdAt : Nat
  userId : String
deriving DecidableEq

/-- Store of the `part_001` variant: chats, plus the nested message
collections flattened into `(chatId, messageId, document)` triples. -/
structure Store1 where
  chats : List (Nat × ChatMeta)
  msgs : List (Nat × Nat × MsgDoc1)
  nextId : Nat
  clock : Nat
deriving DecidableEq

/-- Empty `part_001` store. -/
def Store1.init : Store1 := { chats := [], msgs := [], nextId := 0, clock := 0 }

namespace P1

/-- Handler `handleCreateChat` of `src/unnamed/part_001` (lines 357–372):
`if (!title?.trim()) return;` silently rejects a missing, empty, or
whitespace-only title (no `ValidationError` is raised, no document is
written); otherwise `addDoc` creates the chat with the trimmed title,
`createdAt: serverTimestamp()`, and `messageCount: 0` — no `lastMessageAt`
and no `createdBy` field at all. -/
def handleCreateChat (title : Option String) (s : Store1) :
    Store1 × Option Nat :=
  match title with
  | none => (s, none)
  | some t =>
    if jsTrim t = "" then (s, none)
    else
      ({ s with
          chats := s.chats ++
            [(s.nextId, { title := jsTrim t, createdAt := s.clock,
                          messageCount := 0 })]
          nextId := s.nextId + 1
          clock := s.clock + 1 }, some s.nextId)

/-- The message `addDoc` of `handleSend` in `src/unnamed/part_001`
(lines 292–347, no file attached): a new document in the nested collection
`chats/{chatId}/messages` with a server-assigned `createdAt`. -/
def addDocMessage (chatId : Nat) (uid tt : String) (s : Store1) : Store1 :=
  { s with
    msgs := s.msgs ++
      [(chatId, s.nextId,
        { text := tt, createdAt := s.clock, userId := uid })]
    nextId := s.nextId + 1
    clock := s.clock + 1 }

/-- The chat-metadata `updateDoc` of `handleSend` (lines 336–341): write
`lastMessageText` and `lastMessageAt: serverTimestamp()`.  On a missing chat
document `updateDoc` rejects and the `catch` leaves the state as it is. -/
def updateLastMessage (chatId : Nat) (tt : String) (s : Store1) : Store1 :=
  match s.chats.find? (fun p => p.1 == chatId) with
  | none => s
  | some _ =>
    { s with
      chats := s.chats.map (fun p =>
        if p.1 == chatId then
          (p.1, { p.2 with lastMessageText := some tt,
                           lastMessageAt := some s.clock })
        else p)
      clock := s.clock + 1 }

/-- Full `handleSend` with no file attached: the guard, the message
`addDoc`, and the metadata update — and nothing else; in particular
`messageCount` is never touched. -/
def handleSend (uid text : String) (chatId : Nat) (s : Store1) : Store1 :=
  if jsTrim text = "" then s
  else
    updateLastMessage chatId (jsTrim text)
      (addDocMessage chatId uid (jsTrim text) s)

/-- Run a sequence of `(author, text)` sends against chat `chatId`. -/
def sendAll (inputs : List (String × String)) (chatId : Nat) (s : Store1) :
    Store1 :=
  inputs.foldl (fun st p => handleSend p.1 p.2 chatId st) s

/-- The `messageCount` of chat `cid` as stored. -/
def countOf (cid : Nat) (s : Store1) : Option Nat :=
  (s.chats.find? (fun p => p.1 == cid)).map (·.2.messageCount)

/-- The messages of the nested collection `chats/{cid}/messages`. -/
def msgsFor (cid : Nat) (s : Store1) : List (Nat × Nat × MsgDoc1) :=
  s.msgs.filter (fun p => p.1 == cid)

end P1

namespace P3

/-- Client-side chat record built by the chats subscription of
`src/unnamed/part_003` (lines 952–985): id, title, and the raw document
fields; `createdAt` / `lastMessageAt` are timestamps in seconds (absent or
`null` modelled as `none`). -/
structure ChatView where
  id : Nat
  title : String
  createdAt : Option Nat
  lastMessageAt : Option Nat
  messageCount : Option Nat
deriving DecidableEq

/-- The comparison key of the client-side sort (`part_003` lines 966–970):
`a.lastMessageAt?.seconds ?? 0`. -/
def sortKey (c : ChatView) : Nat := c.lastMessageAt.getD 0

/-- Stable descending insertion by `sortKey`: the new element is placed
after every element whose key is greater than or equal to its own — exactly
where a stable descending sort puts a later-arriving element. -/
def insertByKey (c : ChatView) : List ChatView → List ChatView
  | [] => [c]
  | b :: rest =>
    if sortKey b < sortKey c then c :: b :: rest
    else b :: insertByKey c rest

/-- The client-side sort `list.sort((a, b) => bTs - aTs)` of `part_003`
(lines 966–970), i.e. the stable descending sort by
`lastMessageAt?.seconds ?? 0` (ECMAScript `Array.prototype.sort` is
required to be stable, and a stable sort for a given comparator is unique,
so any stable descending sort computes the same list). -/
def sortChats (l : List ChatView) : List ChatView :=
  l.foldl (fun acc c => insertByKey c acc) []

/-- The mention token `@${m.userName} ` of `handleMention` in
`src/unnamed/part_003` (line 459), over explicit character lists. -/
def mentionToken (userName : List Char) : List Char :=
  '@' :: (userName ++ [' '])

end P3

/-- JS `startsWith` over character lists: does the second list occur as an
initial segment of the first? -/
def startsWith : List Char → List Char → Bool
  | _, [] => true
  | [], _ :: _ => false
  | a :: s, b :: p => a == b && startsWith s p

/-- JS `String.prototype.includes` over character lists: does `pat` occur
as a contiguous run anywhere in the second list? -/
def hasSub (pat : List Char) : List Char → Bool
  | [] => pat.isEmpty
  | c :: rest => startsWith (c :: rest) pat || hasSub pat rest

namespace P3

/-- Handler `handleMention` of `src/unnamed/part_003` (lines 458–462):
`prev.includes(mention) ? prev : (prev ? prev + " " : "") + mention` —
append the token (space-separated when the current text is nonempty) unless
the text already contains it. -/
def handleMention (userName prev : List Char) : List Char :=
  if hasSub (mentionToken userName) prev then prev
  else (if prev = [] then [] else prev ++ [' ']) ++ mentionToken userName

end P3

namespace App

/-- Handler `handleMention` of `src/src/App.tsx` (lines 335–338):
`prev ? `${prev} @${name}` : `@${name} `` — appends unconditionally, with
no containment check (and no trailing space in the nonempty case). -/
def handleMention (name prev : String) : String :=
  if prev = "" then "@" ++ name ++ " " else prev ++ " @" ++ name

/-- Browser environment read by the global notification listener of
`src/src/App.tsx` (lines 356–413): whether the `Notification` API exists,
whether permission is `"granted"`, whether the tab is hidden
(`document.hidden`), and the currently active chat id. -/
structure NotifEnv where
  notifAvailable : Bool
  permission : Bool
  hidden : Bool
  activeChatId : Option Nat
deriving DecidableEq

/-- The per-session notification state: the signed-in user
(`firebaseUser.uid`) and the `lastNotifiedMessageIdRef` ref (initially
`null`). -/
structure NotifSession where
  observerId : String
  lastNotifiedId : Option Nat
deriving DecidableEq

/-- The fields of the last message read by the listener: document id,
`data.userId`, and the parent chat id (`docSnap.ref.parent.parent?.id`). -/
structure LastMsg where
  id : Nat
  userId : String
  chatId : Option Nat
deriving DecidableEq

/-- The body of the `onSnapshot` callback of the global notification
listener (`src/src/App.tsx` lines 372–413), as a function from the
environment, the session state and the incoming message to the pair
(alert fired?, new session state).  Guards in source order:
own message (`data.userId === firebaseUser.uid`), already notified
(`lastNotifiedMessageIdRef.current === id`), missing `Notification` API,
permission not granted, and the suppression
`if (!document.hidden && chatId === activeChatId) return;`.  Only when all
guards pass is the alert fired and the ref updated. -/
def onLastMessageSnapshot (env : NotifEnv) (sess : NotifSession)
    (m : LastMsg) : Bool × NotifSession :=
  if m.userId = sess.observerId then (false, sess)
  else if sess.lastNotifiedId = some m.id then (false, sess)
  else if !env.notifAvailable then (false, sess)
  else if !env.permission then (false, sess)
  else if !env.hidden && (m.chatId == env.activeChatId) then (false, sess)
  else (true, { sess with lastNotifiedId := some m.id })

end App

/-- Store of the claim C2 scenario: the `part_001` store right after its
`handleCreateChat` created the room `"General"` (id `0`, `messageCount = 0`). -/
def c2Store : Store1 := (P1.handleCreateChat (some "General") Store1.init).1

/-- Claim C1 (code_bug evaluation): `handleSendMessage` updates the room
aggregate by a `getDoc` followed by a separate `updateDoc(count + 1)` — two
round trips, not one atomic read-modify-write.  Under the interleaving in
which both of `N = 2` concurrent appends read before either writes, the
store ends with `2` messages for the room but `messageCount = 1`, not `2`;
run sequentially, the same two appends give `messageCount = 2`. -/
theorem c1_lost_update_run :
    (P4.exec 0 callerUid callerUid callerText lostUpdateSchedule
        { store := oneChatStore, regs := [] }).store.msgs.length = 2
    ∧ ((P4.exec 0 callerUid callerUid callerText lostUpdateSchedule
        { store := oneChatStore, regs := [] }).store.chats.find?
          (fun p => p.1 == 0)).map (fun p => p.2.messageCount)
        = some (some 1)
    ∧ ((P4.exec 0 callerUid callerUid callerText sequentialSchedule
        { store := oneChatStore, regs := [] }).store.chats.find?
          (fun p => p.1 == 0)).map (fun p => p.2.messageCount)
        = some (some 2) := by
  decide

/-- Helper: the counter-decrement step never touches the `messages`
collection. -/
theorem decrementCount_msgs (cid : Nat) (s : Store) :
    (P3.decrementCount cid s).msgs = s.msgs := by
  unfold P3.decrementCount
  cases findChat s cid <;> rfl

/-- Claim C3 (counterexample): the claim says a Delete invoked by a
non-author fails with `PermissionError` and leaves the message in place.  In
`part_005` the delete handler takes no caller at all and performs a bare
`deleteDoc`: invoked (by anyone, in particular a user other than the author
`"u1"`) on message `5`, it succeeds — the message is gone afterwards and no
error path exists in the function. -/
theorem c3_counterexample :
    (P5.handleDeleteMessage 5 c3Store).msgs = []
    ∧ (P5.handleDeleteMessage 5 c3Store).chats = c3Store.chats := by
  decide

/-- Claim C3 (amended): for every message `m` and every caller `u` distinct
from `m`'s author, Delete succeeds with no `PermissionError`: both the
`part_005` and `part_003` handlers remove the message document outright
(hard delete), and the `part_005` handler leaves the `chats` collection —
hence the room's `messageCount` — unchanged. -/
theorem c3_delete_ignores_author (s : Store) (mid cid : Nat) (u : String)
    (m : MsgDoc) (_hm : (mid, m) ∈ s.msgs) (_hu : m.userId ≠ u) :
    (∀ p ∈ (P5.handleDeleteMessage mid s).msgs, p.1 ≠ mid)
    ∧ (P5.handleDeleteMessage mid s).chats = s.chats
    ∧ (∀ p ∈ (P3.handleDeleteMessage mid cid s).msgs, p.1 ≠ mid) := by
  refine ⟨?_, rfl, ?_⟩
  · intro p hp
    have h := List.of_mem_filter hp
    simpa using h
  · intro p hp
    rw [P3.handleDeleteMessage, decrementCount_msgs] at hp
    have h := List.of_mem_filter hp
    simpa using h

/-- Witness for `c3_delete_ignores_author` at the concrete store
`c3Store`, message `5` (author `"u1"`), caller `"u2"`. -/
theorem c3_delete_ignores_author_witness :
    (∀ p ∈ (P5.handleDeleteMessage 5 c3Store).msgs, p.1 ≠ 5)
    ∧ (P5.handleDeleteMessage 5 c3Store).chats = c3Store.chats
    ∧ (∀ p ∈ (P3.handleDeleteMessage 5 0 c3Store).msgs, p.1 ≠ 5) :=
  c3_delete_ignores_author c3Store 5 0 "u2"
    { chatId := 0, text := some "hello", createdAt := 1,
      userId := "u1", userName := "U1" }
    (by decide) (by decide)

/-- Helper: filtering for `chatId == cid` after filtering for
`chatId != cid` leaves nothing. -/
theorem filter_chatId_contra (cid : Nat) :
    ∀ l : List (Nat × MsgDoc),
      (l.filter (fun p => p.2.chatId != cid)).filter
        (fun p => p.2.chatId == cid) = []
  | [] => rfl
  | a :: l => by
    rcases eq_or_ne a.2.chatId cid with h | h <;>
      simp [List.filter_cons, h, filter_chatId_contra cid l]

/-- Claim C5 (counterexample): after the `part_005` `handleDeleteChat`, the
room document is gone but its message is still in the `messages` collection,
so a subsequent read for that `chatId` returns it — a sequence of length 1,
not the empty sequence the claim requires. -/
theorem c5_counterexample :
    (P5.handleDeleteChat 0 c5Store).chats = []
    ∧ (readMessagesFor 0 (P5.handleDeleteChat 0 c5Store)).length = 1 := by
  decide

/-- Claim C5 (amended): the cited `part_005` room deletion never cleans up
messages, so reads for the deleted `chatId` return the orphaned messages
(see `c5_counterexample`); reads are total and never error.  The empty-read
guarantee does hold for the `part_003` variant, which deletes the room's
messages: after its `handleDeleteChat`, every subsequent read for that
`chatId` returns the empty sequence. -/
theorem c5_reads_after_full_delete_empty (cid : Nat) (s : Store) :
    readMessagesFor cid (P3.handleDeleteChat cid s) = [] := by
  unfold readMessagesFor P3.handleDeleteChat
  simp only [filter_chatId_contra]
  rfl

/-- Helper: the per-chat update of `updateLastMessage` preserves the key of
every entry. -/
theorem updateLastMessage_fst (chatId : Nat) (tt : String) (ts : Nat)
    (a : Nat × ChatMeta) :
    ((if a.1 == chatId then
        (a.1, { a.2 with lastMessageText := some tt,
                         lastMessageAt := some ts })
      else a) : Nat × ChatMeta).1 = a.1 := by
  rcases eq_or_ne a.1 chatId with h | h <;> simp [h]

/-- Helper: the chat-metadata map of `updateLastMessage` preserves every
chat's key and `messageCount`. -/
theorem find_map_preserves_count (cid chatId : Nat) (tt : String) (ts : Nat)
    (l : List (Nat × ChatMeta)) :
    ((l.map (fun p =>
        if p.1 == chatId then
          (p.1, { p.2 with lastMessageText := some tt,
                           lastMessageAt := some ts })
        else p)).find? (fun p => p.1 == cid)).map (·.2.messageCount)
    = (l.find? (fun p => p.1 == cid)).map (·.2.messageCount) := by
  induction l with
  | nil => rfl
  | cons a l ih =>
    rw [List.map_cons, List.find?_cons, List.find?_cons,
        updateLastMessage_fst chatId tt ts a]
    cases hc : (a.1 == cid) with
    | false => exact ih
    | true => rcases eq_or_ne a.1 chatId with h1 | h1 <;> simp [h1]

/-- Helper: the metadata update of `handleSend` does not change any chat's
stored `messageCount`. -/
theorem countOf_updateLastMessage (cid chatId : Nat) (tt : String)
    (s : Store1) :
    P1.countOf cid (P1.updateLastMessage chatId tt s)
      = P1.countOf cid s := by
  unfold P1.updateLastMessage
  cases hf : s.chats.find? (fun p => p.1 == chatId) with
  | none => rfl
  | some c =>
    exact find_map_preserves_count cid chatId tt s.clock s.chats

/-- Helper: the metadata update of `handleSend` never touches the message
collections. -/
theorem msgs_updateLastMessage (chatId : Nat) (tt : String) (s : Store1) :
    (P1.updateLastMessage chatId tt s).msgs = s.msgs := by
  unfold P1.updateLastMessage
  cases s.chats.find? (fun p => p.1 == chatId) <;> rfl

/-- Helper: `handleSend` never changes any chat's stored `messageCount`. -/
theorem countOf_handleSend (uid text : String) (cid chatId : Nat)
    (s : Store1) :
    P1.countOf cid (P1.handleSend uid text chatId s) = P1.countOf cid s := by
  unfold P1.handleSend
  rcases eq_or_ne (jsTrim text) "" with h | h
  · rw [if_pos h]
  · rw [if_neg h, countOf_updateLastMessage]
    rfl

/-- Helper: one `handleSend` to chat `cid` grows the nested message
collection of `cid` by one message when the trimmed text is nonempty, and by
nothing otherwise. -/
theorem msgsFor_handleSend (uid text : String) (cid : Nat) (s : Store1) :
    (P1.msgsFor cid (P1.handleSend uid text cid s)).length
    = (P1.msgsFor cid s).length + (if jsTrim text = "" then 0 else 1) := by
  unfold P1.handleSend
  rcases eq_or_ne (jsTrim text) "" with h | h
  · rw [if_pos h, if_pos h, Nat.add_zero]
  · rw [if_neg h, if_neg h]
    unfold P1.msgsFor
    rw [msgs_updateLastMessage]
    simp [P1.addDocMessage, List.filter_append]

/-- Claim C2 (amended): in the cited `part_001` variant, Append never
updates `messageCount`.  After any sequence of `handleSend` calls to room
`R`, `R.messageCount` is exactly what it was before (so it stays at its
creation value `0`), while the number of stored messages with chatId `R.id`
has grown by one per send whose trimmed text is nonempty — hence the
invariant `messageCount = number of non-deleted messages` is violated as
soon as one message is appended. -/
theorem c2_messageCount_never_updated (inputs : List (String × String))
    (cid : Nat) (s : Store1) :
    P1.countOf cid (P1.sendAll inputs cid s) = P1.countOf cid s
    ∧ (P1.msgsFor cid (P1.sendAll inputs cid s)).length
      = (P1.msgsFor cid s).length
        + (inputs.filter (fun p => jsTrim p.2 != "")).length := by
  induction inputs generalizing s with
  | nil => simp [P1.sendAll]
  | cons a rest ih =>
    have hstep : P1.sendAll (a :: rest) cid s
        = P1.sendAll rest cid (P1.handleSend a.1 a.2 cid s) := rfl
    have ihr := ih (P1.handleSend a.1 a.2 cid s)
    constructor
    · rw [hstep]
      exact ihr.1.trans (countOf_handleSend a.1 a.2 cid cid s)
    · rw [hstep, ihr.2, msgsFor_handleSend a.1 a.2 cid s]
      rcases eq_or_ne (jsTrim a.2) "" with h | h
      · rw [if_pos h, List.filter_cons, if_neg (by simp [h])]
        omega
      · rw [if_neg h, List.filter_cons, if_pos (by simp [h])]
        rw [List.length_cons]
        omega

/-- Claim C2 (counterexample): create room `"General"` with the `part_001`
`handleCreateChat` (so `messageCount = 0`), append one message with
`handleSend`: the room now stores one non-deleted message with its chatId,
but `messageCount` is still `0`, not `1` as the claimed invariant requires. -/
theorem c2_counterexample :
    P1.countOf 0 (P1.handleSend "u1" "hi" 0 c2Store) = some 0
    ∧ (P1.msgsFor 0 (P1.handleSend "u1" "hi" 0 c2Store)).length = 1 := by
  decide

/-- Claim C4 (amended): no `CreateRoom` variant raises a `ValidationError`.
With a cancelled or empty title both handlers silently return and create
nothing; the `part_001` variant also silently rejects a title that is empty
after trimming; the `part_004` variant does not trim at all, so any nonempty
title — a whitespace-only one included — creates a room document. -/
theorem c4_create_silent_reject (s1 : Store1) (s : Store) (t uid : String) :
    (jsTrim t = "" → P1.handleCreateChat (some t) s1 = (s1, none))
    ∧ P4.handleCreateChat none uid s = (s, none)
    ∧ P4.handleCreateChat (some "") uid s = (s, none)
    ∧ (t ≠ "" →
        (P4.handleCreateChat (some t) uid s).1.chats.length
          = s.chats.length + 1) := by
  refine ⟨?_, rfl, ?_, ?_⟩
  · intro h
    simp [P1.handleCreateChat, h]
  · simp [P4.handleCreateChat]
  · intro h
    simp [P4.handleCreateChat, h]

/-- Witness for `c4_create_silent_reject` at the whitespace-only title
`" "`: the `part_001` variant silently creates nothing, while the
`part_004` variant creates a room. -/
theorem c4_create_silent_reject_witness :
    P1.handleCreateChat (some " ") Store1.init = (Store1.init, none)
    ∧ (P4.handleCreateChat (some " ") "u" Store.init).1.chats.length
        = Store.init.chats.length + 1 :=
  ⟨(c4_create_silent_reject Store1.init Store.init " " "u").1 (by decide),
   (c4_create_silent_reject Store1.init Store.init " " "u").2.2.2 (by decide)⟩

/-- Claim C4 (counterexample): `" "` is empty after trimming, so the claim
requires a `ValidationError` and no room; the `part_004` `handleCreateChat`
instead creates a room document with the raw whitespace title and returns
its id — its only rejection is the silent `if (!title) return`, which a
whitespace-only title passes. -/
theorem c4_counterexample :
    (P4.handleCreateChat (some " ") "u" Store.init).1.chats
      = [(0, { title := " ", createdAt := 0, lastMessageAt := some 0,
               createdBy := "u", messageCount := some 0 })]
    ∧ (P4.handleCreateChat (some " ") "u" Store.init).2 = some 0 := by
  decide

/-- Helper: `find?` skips a block in which it finds nothing. -/
theorem find?_append_of_none {α : Type} {p : α → Bool} {l1 l2 : List α}
    (h : l1.find? p = none) : (l1 ++ l2).find? p = l2.find? p := by
  induction l1 with
  | nil => rfl
  | cons a l ih =>
    by_cases hp : p a
    · rw [List.find?_cons_of_pos _ hp] at h
      exact absurd h (by simp)
    · rw [List.cons_append, List.find?_cons_of_neg _ hp]
      exact ih (by rwa [List.find?_cons_of_neg _ hp] at h)

/-- Claim C8 (amended): a successful `CreateRoom` assigns the store's fresh
id (distinct from every existing room id when ids are below the fresh-id
counter), sets `createdAt` to the server time, and sets `messageCount = 0`;
`lastMessageAt = createdAt` holds in the `part_004` variant (both fields are
the same `serverTimestamp()` of one write), but the cited `part_003` variant
writes `lastMessageAt: null` instead. -/
theorem c8_createRoom_fields (s : Store) (t uid : String) (ht : t ≠ "")
    (hwf : ∀ p ∈ s.chats, p.1 < s.nextId) :
    (P4.handleCreateChat (some t) uid s).2 = some s.nextId
    ∧ (∀ p ∈ s.chats, p.1 ≠ s.nextId)
    ∧ findChat (P4.handleCreateChat (some t) uid s).1 s.nextId
        = some { title := t, createdAt := s.clock,
                 lastMessageAt := some s.clock, createdBy := uid,
                 messageCount := some 0 }
    ∧ findChat (P3.handleCreateChat (some t) uid s).1 s.nextId
        = some { title := t, createdAt := s.clock,
                 lastMessageAt := none, createdBy := uid,
                 messageCount := some 0 } := by
  have hnone : s.chats.find? (fun p => p.1 == s.nextId) = none := by
    rw [List.find?_eq_none]
    intro p hp
    simpa using Nat.ne_of_lt (hwf p hp)
  refine ⟨by simp [P4.handleCreateChat, ht], ?_, ?_, ?_⟩
  · intro p hp
    exact Nat.ne_of_lt (hwf p hp)
  · simp [P4.handleCreateChat, ht, findChat, find?_append_of_none hnone]
  · simp [P3.handleCreateChat, ht, findChat, find?_append_of_none hnone]

/-- Witness for `c8_createRoom_fields` on the empty store with title
`"General"`. -/
theorem c8_createRoom_fields_witness :
    (P4.handleCreateChat (some "General") "u0" Store.init).2
        = some Store.init.nextId
    ∧ (∀ p ∈ Store.init.chats, p.1 ≠ Store.init.nextId)
    ∧ findChat (P4.handleCreateChat (some "General") "u0" Store.init).1
          Store.init.nextId
        = some { title := "General", createdAt := Store.init.clock,
                 lastMessageAt := some Store.init.clock, createdBy := "u0",
                 messageCount := some 0 }
    ∧ findChat (P3.handleCreateChat (some "General") "u0" Store.init).1
          Store.init.nextId
        = some { title := "General", createdAt := Store.init.clock,
                 lastMessageAt := none, createdBy := "u0",
                 messageCount := some 0 } :=
  c8_createRoom_fields Store.init "General" "u0" (by decide)
    (by simp [Store.init])

/-- Claim C8 (counterexample): the `part_003` `handleCreateChat` produces a
room whose `lastMessageAt` is `null` (`none`), while its `createdAt` is the
server time `0` — so `lastMessageAt = createdAt` fails for this successful
`CreateRoom`. -/
theorem c8_counterexample :
    (findChat (P3.handleCreateChat (some "General") "u0" Store.init).1 0).map
        (·.lastMessageAt) = some none
    ∧ (findChat (P3.handleCreateChat (some "General") "u0" Store.init).1 0).map
        (·.createdAt) = some 0 := by
  decide

/-- Helper: inserting into a list is a permutation of consing. -/
theorem insertByKey_perm (c : P3.ChatView) (l : List P3.ChatView) :
    (P3.insertByKey c l).Perm (c :: l) := by
  induction l with
  | nil => exact List.Perm.refl _
  | cons b rest ih =>
    rw [P3.insertByKey]
    by_cases hlt : P3.sortKey b < P3.sortKey c
    · rw [if_pos hlt]
    · rw [if_neg hlt]
      exact (ih.cons b).trans (List.Perm.swap c b rest)

/-- Helper: folding `insertByKey` over a list permutes the list into the
accumulator. -/
theorem foldl_insertByKey_perm (l : List P3.ChatView) :
    ∀ acc : List P3.ChatView,
      (l.foldl (fun acc c => P3.insertByKey c acc) acc).Perm (l ++ acc) := by
  induction l with
  | nil => intro acc; exact List.Perm.refl _
  | cons c rest ih =>
    intro acc
    have h1 := ih (P3.insertByKey c acc)
    have h2 : (rest ++ P3.insertByKey c acc).Perm (rest ++ (c :: acc)) :=
      List.Perm.append_left rest (insertByKey_perm c acc)
    exact (h1.trans h2).trans List.perm_middle

/-- Helper: inserting into a descending-sorted list keeps it sorted. -/
theorem insertByKey_pairwise (c : P3.ChatView) (l : List P3.ChatView)
    (h : l.Pairwise (fun x y => P3.sortKey y ≤ P3.sortKey x)) :
    (P3.insertByKey c l).Pairwise
      (fun x y => P3.sortKey y ≤ P3.sortKey x) := by
  induction l with
  | nil => simp [P3.insertByKey]
  | cons b rest ih =>
    rw [List.pairwise_cons] at h
    obtain ⟨hb, hrest⟩ := h
    rw [P3.insertByKey]
    by_cases hlt : P3.sortKey b < P3.sortKey c
    · rw [if_pos hlt, List.pairwise_cons]
      refine ⟨?_, List.pairwise_cons.mpr ⟨hb, hrest⟩⟩
      intro y hy
      rcases List.mem_cons.mp hy with hy | hy
      · exact hy ▸ Nat.le_of_lt hlt
      · exact Nat.le_trans (hb y hy) (Nat.le_of_lt hlt)
    · rw [if_neg hlt, List.pairwise_cons]
      refine ⟨?_, ih hrest⟩
      intro y hy
      have hy' : y ∈ c :: rest := (insertByKey_perm c rest).mem_iff.mp hy
      rcases List.mem_cons.mp hy' with hy' | hy'
      · exact hy' ▸ Nat.le_of_not_lt hlt
      · exact hb y hy'

/-- Helper: folding `insertByKey` preserves sortedness of the
accumulator. -/
theorem foldl_insertByKey_pairwise (l : List P3.ChatView) :
    ∀ acc : List P3.ChatView,
      acc.Pairwise (fun x y => P3.sortKey y ≤ P3.sortKey x) →
      (l.foldl (fun acc c => P3.insertByKey c acc) acc).Pairwise
        (fun x y => P3.sortKey y ≤ P3.sortKey x) := by
  induction l with
  | nil => intro acc h; exact h
  | cons c rest ih =>
    intro acc h
    exact ih (P3.insertByKey c acc) (insertByKey_pairwise c acc h)

/-- Claim C7 (amended): `ListRooms` in the cited `part_003` variant returns
a permutation of the subscribed room list that is sorted by
`lastMessageAt` seconds descending (a missing timestamp counts as `0`); the
comparator reads only `lastMessageAt`, so equal-`lastMessageAt` rooms are
not ordered by `createdAt` descending (see the counterexample). -/
theorem c7_sortChats_sorted_perm (l : List P3.ChatView) :
    (P3.sortChats l).Perm l
    ∧ (P3.sortChats l).Pairwise
        (fun x y => P3.sortKey y ≤ P3.sortKey x) := by
  constructor
  · have h := foldl_insertByKey_perm l []
    rw [List.append_nil] at h
    exact h
  · exact foldl_insertByKey_pairwise l [] List.Pairwise.nil

/-- Claim C7 (counterexample): two rooms share the same `lastMessageAt`
(seconds `5`); room `1` has the smaller `createdAt` (`1 < 2`), so the
claimed `createdAt`-descending tiebreak requires room `2` first; the
client-side sort is stable and leaves the snapshot order `[room 1, room 2]`
unchanged. -/
theorem c7_counterexample :
    P3.sortChats
        [{ id := 1, title := "A", createdAt := some 1,
           lastMessageAt := some 5, messageCount := some 1 },
         { id := 2, title := "B", createdAt := some 2,
           lastMessageAt := some 5, messageCount := some 1 }]
      = [{ id := 1, title := "A", createdAt := some 1,
           lastMessageAt := some 5, messageCount := some 1 },
         { id := 2, title := "B", createdAt := some 2,
           lastMessageAt := some 5, messageCount := some 1 }] := by
  decide

/-- Helper: a list starts with itself followed by anything. -/
theorem startsWith_append (p t : List Char) :
    startsWith (p ++ t) p = true := by
  induction p with
  | nil => cases t <;> rfl
  | cons a p ih => simp [startsWith, ih]

/-- Helper: a pattern occurs in any list that ends with it. -/
theorem hasSub_append (pat pre : List Char) :
    hasSub pat (pre ++ pat) = true := by
  induction pre with
  | nil =>
    cases pat with
    | nil => rfl
    | cons c p =>
      have hs := startsWith_append (c :: p) []
      rw [List.append_nil] at hs
      simp [hasSub, hs]
  | cons a pre ih => simp [hasSub, ih]

/-- Claim C9 (amended): the `part_003` `handleMention` appends the token
`@name ` (separated by a space when the text is nonempty) unless the text
already contains that exact token anywhere, and it is idempotent: applying
it twice with the same name yields the same text as applying it once.  (The
`App.tsx` variant appends unconditionally and is not idempotent — see the
counterexample.) -/
theorem c9_insertMention_idempotent (userName prev : List Char) :
    P3.handleMention userName (P3.handleMention userName prev)
      = P3.handleMention userName prev := by
  cases h : hasSub (P3.mentionToken userName) prev with
  | true => simp [P3.handleMention, h]
  | false => simp [P3.handleMention, h, hasSub_append]

/-- Claim C9 (counterexample): the `App.tsx` `handleMention` has no
containment check, so applying it twice duplicates the mention:
from the empty draft, once gives `"@Ann "`, twice gives `"@Ann  @Ann"` —
not idempotent, refuting the claim for this cited implementation. -/
theorem c9_counterexample :
    App.handleMention "Ann" (App.handleMention "Ann" "")
      ≠ App.handleMention "Ann" "" := by
  decide

/-- Claim C6 (counterexample): a message by another author
(`"u2" ≠ "u1"`) that was never notified before (`lastNotifiedId = none`)
arrives while the tab is visible (`hidden = false`) and its chat is the
active chat — the claim requires the callback to return `true` and record
the id, but the listener's suppression guard returns `false` and leaves the
session unchanged. -/
theorem c6_counterexample :
    App.onLastMessageSnapshot
        { notifAvailable := true, permission := true, hidden := false,
          activeChatId := some 3 }
        { observerId := "u1", lastNotifiedId := none }
        { id := 9, userId := "u2", chatId := some 3 }
      = (false, { observerId := "u1", lastNotifiedId := none })
    ∧ ("u2" : String) ≠ "u1"
    ∧ (none : Option Nat) ≠ some 9 := by
  decide

/-- Claim C6 (amended): the listener returns `false` for the session's own
messages and for an already-notified id; in the remaining case it returns
`true` and records the id only when the `Notification` API is available
with permission granted and the alert is not suppressed by the
visible-tab/active-chat guard — and then a second delivery of the same
message to the updated session returns `false`, so under those conditions a
message delivered twice alerts exactly once across the two deliveries. -/
theorem c6_shouldNotify_guarded (env : App.NotifEnv)
    (sess : App.NotifSession) (m : App.LastMsg) :
    (m.userId = sess.observerId →
      App.onLastMessageSnapshot env sess m = (false, sess))
    ∧ (sess.lastNotifiedId = some m.id →
      App.onLastMessageSnapshot env sess m = (false, sess))
    ∧ (m.userId ≠ sess.observerId → sess.lastNotifiedId ≠ some m.id →
        env.notifAvailable = true → env.permission = true →
        (env.hidden = true ∨ (m.chatId == env.activeChatId) = false) →
        App.onLastMessageSnapshot env sess m
            = (true, { sess with lastNotifiedId := some m.id })
          ∧ (App.onLastMessageSnapshot env
              { sess with lastNotifiedId := some m.id } m).1 = false) := by
  refine ⟨?_, ?_, ?_⟩
  · intro h
    simp [App.onLastMessageSnapshot, h]
  · intro h
    rcases eq_or_ne m.userId sess.observerId with h0 | h0 <;>
      simp [App.onLastMessageSnapshot, h0, h]
  · intro h1 h2 h3 h4 h5
    have hsup : (!env.hidden && (m.chatId == env.activeChatId)) = false := by
      rcases h5 with h5 | h5 <;> simp [h5]
    constructor
    · simp [App.onLastMessageSnapshot, h1, h2, h3, h4, hsup]
    · simp [App.onLastMessageSnapshot, h1]

/-- Witness for `c6_shouldNotify_guarded`: hidden tab, permission granted,
fresh message from another author — the first delivery alerts and records
id `9`, the second delivery of the same message is deduplicated. -/
theorem c6_shouldNotify_guarded_witness :
    App.onLastMessageSnapshot
        { notifAvailable := true, permission := true, hidden := true,
          activeChatId := some 3 }
        { observerId := "u1", lastNotifiedId := none }
        { id := 9, userId := "u2", chatId := some 3 }
      = (true, { observerId := "u1", lastNotifiedId := some 9 })
    ∧ (App.onLastMessageSnapshot
        { notifAvailable := true, permission := true, hidden := true,
          activeChatId := some 3 }
        { observerId := "u1", lastNotifiedId := some 9 }
        { id := 9, userId := "u2", chatId := some 3 }).1 = false :=
  (c6_shouldNotify_guarded
      { notifAvailable := true, permission := true, hidden := true,
        activeChatId := some 3 }
      { observerId := "u1", lastNotifiedId := none }
      { id := 9, userId := "u2", chatId := some 3 }).2.2
    (by decide) (by decide) rfl rfl (Or.inl rfl)

/-- Claim C10 (confirmed): an incoming message from another author that was
not previously notified produces no alert while the tab is visible and the
message's chat is the active chat — whatever the permission state — and the
session's last-notified id is left unchanged; consequently the same message
can still alert on a later delivery in an environment where the tab is
hidden (with the API available and permission granted), which also records
its id then. -/
theorem c10_active_chat_suppression (env env2 : App.NotifEnv)
    (sess : App.NotifSession) (m : App.LastMsg)
    (h1 : m.userId ≠ sess.observerId)
    (h2 : sess.lastNotifiedId ≠ some m.id)
    (h3 : env.hidden = false)
    (h4 : (m.chatId == env.activeChatId) = true) :
    App.onLastMessageSnapshot env sess m = (false, sess)
    ∧ (env2.notifAvailable = true → env2.permission = true →
        env2.hidden = true →
        (App.onLastMessageSnapshot env2 sess m).1 = true
        ∧ (App.onLastMessageSnapshot env2 sess m).2.lastNotifiedId
            = some m.id) := by
  constructor
  · cases ha : env.notifAvailable <;> cases hp : env.permission <;>
      simp [App.onLastMessageSnapshot, h1, h2, h3, h4, ha, hp]
  · intro g1 g2 g3
    constructor <;> simp [App.onLastMessageSnapshot, h1, h2, g1, g2, g3]

/-- Witness for `c10_active_chat_suppression`: the message for chat `3`
arrives while chat `3` is active and the tab visible (no alert, ref
unchanged); redelivered while the tab is hidden, it alerts and records
id `9`. -/
theorem c10_active_chat_suppression_witness :
    App.onLastMessageSnapshot
        { notifAvailable := true, permission := true, hidden := false,
          activeChatId := some 3 }
        { observerId := "u1", lastNotifiedId := none }
        { id := 9, userId := "u2", chatId := some 3 }
      = (false, { observerId := "u1", lastNotifiedId := none })
    ∧ ((App.onLastMessageSnapshot
          { notifAvailable := true, permission := true, hidden := true,
            activeChatId := some 0 }
          { observerId := "u1", lastNotifiedId := none }
          { id := 9, userId := "u2", chatId := some 3 }).1 = true
       ∧ (App.onLastMessageSnapshot
          { notifAvailable := true, permission := true, hidden := true,
            activeChatId := some 0 }
          { observerId := "u1", lastNotifiedId := none }
          { id := 9, userId := "u2", chatId := some 3 }).2.lastNotifiedId
            = some 9) :=
  ⟨(c10_active_chat_suppression
      { notifAvailable := true, permission := true, hidden := false,
        activeChatId := some 3 }
      { notifAvailable := true, permission := true, hidden := true,
        activeChatId := some 0 }
      { observerId := "u1", lastNotifiedId := none }
      { id := 9, userId := "u2", chatId := some 3 }
      (by decide) (by decide) rfl (by decide)).1,
   (c10_active_chat_suppression
      { notifAvailable := true, permission := true, hidden := false,
        activeChatId := some 3 }
      { notifAvailable := true, permission := true, hidden := true,
        activeChatId := some 0 }
      { observerId := "u1", lastNotifiedId := none }
      { id := 9, userId := "u2", chatId := some 3 }
      (by decide) (by decide) rfl (by decide)).2 rfl rfl rfl⟩
